import Mathlib

/-!
A shallow embedding of DendroPy's NEWICK reader
(`dendropy/dataio/newickreader.py`) and a verification of the
specification's claims about it.

The tokenizer (`dendropy.dataio.nexusprocessing.NexusTokenizer`) and the
taxon symbol mapper (`NexusTaxonSymbolMapper`) are not part of the sampled
source; they are modelled from the specification (their definitions are
marked `Modelled from the spec:`).  Everything in the `NewickReader` class
itself is translated directly from the Python source.

Conventions of the embedding:
* Python exceptions become `Except ErrKind`; source positions (line/column)
  carried by the Python errors are not modelled, only the error kind.
* Python `None` becomes `Option.none` (e.g. the `rooting=None` configuration
  value, the tri-state `Tree.is_rooted`).
* Numeric edge lengths are modelled as `Rat`; the configurable
  `edge_len_type` cast is a `String → Option Rat` function, `none` meaning
  the Python cast raised `ValueError`.
* Quoted labels are not modelled (no claim involves quoting), so
  `is_token_quoted` is always false.
-/

/-- Kinds of run-time failure the reader can produce.  The first four mirror
the `NewickReader` error classes and the tokenizer's end-of-stream failure;
`nameError`, `typeError`, `valueError`, `attributeError` mirror the
corresponding Python built-in exceptions; `outOfFuel` is an artifact of the
fuel-based embedding of the reader's loops and never occurs when enough fuel
is supplied. -/
inductive ErrKind where
  | invalidToken
  | malformedStatement
  | incompleteTreeStatement
  | duplicateLabel
  | nameError
  | typeError
  | valueError
  | attributeError
  | outOfFuel
deriving DecidableEq, Repr

/-! ## Tokenizer

Modelled from the spec: `NexusTokenizer` (module `dendropy.dataio.nexusprocessing`,
not under the sampled source).  It produces one token at a time over a
character stream, treats `( ) , : ;` as single-character structural tokens,
accumulates `[...]` comments appearing between tokens as a side channel that
is returned and cleared by `pull_captured_comments`, and fails with a
positioned error when `require_next_token` is called with nothing remaining
(per the spec's error taxonomy, a stream that ends before the terminating
`;` is an incomplete-tree-statement failure). -/

/-- Structural single-character tokens of the NEWICK grammar. -/
def isStructuralChar (c : Char) : Bool :=
  c = '(' || c = ')' || c = ',' || c = ':' || c = ';'

def isWsChar (c : Char) : Bool :=
  c = ' ' || c = '\t' || c = '\n' || c = '\r'

/-- Read a comment body up to (and consuming) the closing `]`. -/
def scanComment : List Char → (List Char × List Char)
  | [] => ([], [])
  | c :: rest =>
    if c = ']' then ([], rest)
    else
      let r := scanComment rest
      (c :: r.1, r.2)

/-- Read a label token: a maximal run of non-structural, non-bracket,
non-whitespace characters. -/
def scanLabel : List Char → (List Char × List Char)
  | [] => ([], [])
  | c :: rest =>
    if isStructuralChar c || isWsChar c || c = '[' || c = ']' then ([], c :: rest)
    else
      let r := scanLabel rest
      (c :: r.1, r.2)

/-- A raw item of the character scan: a token or a bracketed comment body. -/
inductive RawItem where
  | tok (s : String)
  | comment (s : String)

/-- Scan a character list into raw tokens and comments.  Fueled; every step
consumes at least one character, so `length + 1` fuel always suffices. -/
def rawScan : Nat → List Char → List RawItem
  | 0, _ => []
  | _fuel+1, [] => []
  | fuel+1, c :: rest =>
    if isWsChar c then rawScan fuel rest
    else if c = '[' then
      let r := scanComment rest
      .comment (String.mk r.1) :: rawScan fuel r.2
    else if isStructuralChar c then
      .tok (String.mk [c]) :: rawScan fuel rest
    else
      let r := scanLabel (c :: rest)
      .tok (String.mk r.1) :: rawScan fuel r.2

/-- Group raw items into (comments-preceding, token) pairs plus the trailing
comments that follow the last token. -/
def groupItems (pending : List String) : List RawItem → (List (List String × String) × List String)
  | [] => ([], pending)
  | .comment s :: rest => groupItems (pending ++ [s]) rest
  | .tok t :: rest =>
    let r := groupItems [] rest
    ((pending, t) :: r.1, r.2)

/-- State of the tokenizer: the current token (none before the first
`next_token` and after end of stream), the comments captured since the last
drain, the remaining (comments, token) pairs, and the comments trailing the
last token. -/
structure TkState where
  current : Option String
  captured : List String
  rest : List (List String × String)
  trailing : List String

def initTkState (input : String) : TkState :=
  let g := groupItems [] (rawScan (input.length + 1) input.data)
  { current := none, captured := [], rest := g.1, trailing := g.2 }

/-- Modelled from the spec: advancing moves to the next token (or to
end-of-stream, leaving no current token), appending the comments passed over
to the captured side channel. -/
def next_token (st : TkState) : Option String × TkState :=
  match st.rest with
  | [] => (none,
      { st with
        current := none
        captured := st.captured ++ st.trailing
        trailing := [] })
  | (cs, t) :: r => (some t,
      { st with
        current := some t
        captured := st.captured ++ cs
        rest := r })

/-- Modelled from the spec: `require_advance` moves and fails with a
positioned error if no token remains; per the spec's error taxonomy the
failure of a statement that ends before its terminating `;` is an
incomplete-tree-statement error. -/
def require_next_token (st : TkState) : Except ErrKind (String × TkState) :=
  match next_token st with
  | (none, _) => .error .incompleteTreeStatement
  | (some t, st') => .ok (t, st')

/-- Modelled from the spec: returns and clears all comments captured since
the previous drain. -/
def pull_captured_comments (st : TkState) : List String × TkState :=
  (st.captured, { st with captured := [] })

def clear_captured_comments (st : TkState) : TkState :=
  { st with captured := [] }

/-- Modelled from the spec: end-of-stream indicator (no tokens remain). -/
def is_eof (st : TkState) : Bool :=
  st.rest.isEmpty

/-! ## Data model -/

/-- A node of the tree under construction: optional plain-string label,
optional taxon reference (represented by the taxon's label), an owned edge
length (`none` = unspecified), comments, annotations, and ordered children. -/
inductive PNode where
  | mk (label : Option String) (taxon : Option String) (edgeLength : Option Rat)
       (comments : List String) (annotations : List (String × String))
       (children : List PNode)

def PNode.label : PNode → Option String
  | .mk l _ _ _ _ _ => l

def PNode.taxon : PNode → Option String
  | .mk _ t _ _ _ _ => t

def PNode.edgeLength : PNode → Option Rat
  | .mk _ _ e _ _ _ => e

def PNode.comments : PNode → List String
  | .mk _ _ _ cs _ _ => cs

def PNode.annotations : PNode → List (String × String)
  | .mk _ _ _ _ a _ => a

def PNode.children : PNode → List PNode
  | .mk _ _ _ _ _ ch => ch

def PNode.setLabel : PNode → String → PNode
  | .mk _ t e cs a ch, l => .mk (some l) t e cs a ch

def PNode.setTaxon : PNode → String → PNode
  | .mk l _ e cs a ch, t => .mk l (some t) e cs a ch

def PNode.setEdgeLength : PNode → Rat → PNode
  | .mk l t _ cs a ch, e => .mk l t (some e) cs a ch

def PNode.addComment : PNode → String → PNode
  | .mk l t e cs a ch, c => .mk l t e (cs ++ [c]) a ch

def PNode.addAnnotations : PNode → List (String × String) → PNode
  | .mk l t e cs a ch, a' => .mk l t e cs (a ++ a') ch

def PNode.setChildren : PNode → List PNode → PNode
  | .mk l t e cs a _, ch => .mk l t e cs a ch

/-- `tree.node_factory()`: a fresh empty node with an empty edge. -/
def mkNode : PNode := .mk none none none [] [] []

/-- A tree under construction: tri-state rootedness, optional weight
(`none` = never set by the reader), comments, annotations and the seed
(root) node. -/
structure PTree where
  isRooted : Option Bool
  weight : Option Rat
  comments : List String
  annotations : List (String × String)
  seed : PNode

/-- `tree_factory()`: a fresh tree whose seed node is a fresh empty node. -/
def mkTree : PTree :=
  { isRooted := none, weight := none, comments := [], annotations := [], seed := mkNode }

/-- The reader's configuration: one field per keyword argument stored by
`NewickReader.__init__` (the legacy `as_rooted`-style keywords, which are
rewritten into `rooting` before storage, are not separate fields). -/
structure Config where
  rooting : Option String
  edgeLenParse : String → Option Rat
  suppressEdgeLengths : Bool
  extractCommentMetadata : Bool
  storeTreeWeights : Bool
  encodeSplits : Bool
  finishNodeFunc : Option (PNode → PNode)
  caseSensitiveTaxonLabels : Bool
  preserveUnderscores : Bool
  suppressInternalNodeTaxa : Bool
  suppressExternalNodeTaxa : Bool
  allowDuplicateTaxonLabels : Bool

/-- `_set_rooting`: accepts the four policy strings and `None`; any other
value raises `ValueError`. -/
def set_rooting (val : Option String) : Except ErrKind (Option String) :=
  if val = some "force-unrooted" || val = some "force-rooted"
      || val = some "default-unrooted" || val = some "default-rooted"
      || val = none then
    .ok val
  else
    .error .valueError

/-- Python `float(str)` on the strings the reader passes to it, modelled as
an exact decimal/scientific parse into `Rat` (`none` = `ValueError`). -/
def pyFloat (s : String) : Option Rat :=
  let core (cs : List Char) : Option Rat := Id.run do
    let (sign, cs) :=
      match cs with
      | '+' :: r => ((1 : Rat), r)
      | '-' :: r => ((-1 : Rat), r)
      | r => ((1 : Rat), r)
    let digitsVal (l : List Char) : Nat :=
      l.foldl (fun (a : Nat) (c : Char) => a * 10 + (c.toNat - 48)) 0
    let intPart := cs.takeWhile Char.isDigit
    let cs := cs.dropWhile Char.isDigit
    let (fracPart, cs) :=
      match cs with
      | '.' :: r => (r.takeWhile Char.isDigit, r.dropWhile Char.isDigit)
      | r => ([], r)
    if intPart.isEmpty && fracPart.isEmpty then none
    else
      let (expVal, cs) :=
        match cs with
        | e :: r =>
          if e = 'e' || e = 'E' then
            let (esign, r') :=
              match r with
              | '+' :: r'' => ((1 : Int), r'')
              | '-' :: r'' => ((-1 : Int), r'')
              | r'' => ((1 : Int), r'')
            let eds := r'.takeWhile Char.isDigit
            if eds.isEmpty then ((0 : Int), ['x'])
            else (esign * (digitsVal eds : Nat), r'.dropWhile Char.isDigit)
          else ((0 : Int), e :: r)
        | [] => ((0 : Int), [])
      if !cs.isEmpty then none
      else
        let ip : Nat := digitsVal intPart
        let fp : Nat := digitsVal fracPart
        let base : Rat := (ip : Rat) + (fp : Rat) / ((10 : Rat) ^ fracPart.length)
        let scaled : Rat :=
          if expVal ≥ 0 then base * (10 : Rat) ^ expVal.toNat
          else base / ((10 : Rat) ^ (-expVal).toNat)
        some (sign * scaled)
  core s.data

/-- The configuration produced by `NewickReader()` with no keyword
arguments: the documented defaults. -/
def defaultConfig : Config :=
  { rooting := some "default-unrooted"
    edgeLenParse := pyFloat
    suppressEdgeLengths := false
    extractCommentMetadata := false
    storeTreeWeights := false
    encodeSplits := false
    finishNodeFunc := none
    caseSensitiveTaxonLabels := false
    preserveUnderscores := false
    suppressInternalNodeTaxa := true
    suppressExternalNodeTaxa := false
    allowDuplicateTaxonLabels := false }

/-- Python `token.replace("_", " ")` (single-character pattern, so a
character-wise map). -/
def underscoresToSpaces (s : String) : String :=
  .mk (s.data.map fun c => if c = '_' then ' ' else c)

/-- Python `comment.startswith(p)`. -/
def strStartsWith (s p : String) : Bool :=
  p.data.isPrefixOf s.data

/-- Label text processing of `_parse_tree_node_description` (line 532):
underscores fold to spaces unless `preserve_underscores` is set (quoting,
which also suppresses folding, is not modelled). -/
def foldLabel (cfg : Config) (tok : String) : String :=
  if !cfg.preserveUnderscores then underscoresToSpaces tok else tok

/-- Modelled from the spec: the taxon symbol mapper
(`NexusTaxonSymbolMapper.require_taxon_for_symbol`, not under the sampled
source), bound to one shared namespace for the whole parse session: resolves
a label to the existing taxon with that label, appending a new taxon when
none exists.  The reader passes it no configuration
(`_read` constructs it from the taxon namespace alone). -/
def require_taxon_for_symbol (ns : List String) (label : String) : String × List String :=
  if ns.contains label then (label, ns) else (label, ns ++ [label])

/-- Modelled from the spec: `parse_comment_metadata_to_annotations`
(module `dendropy.dataio.nexusprocessing`, not under the sampled source):
a comment beginning with `&` or `&&` is split into `key=value` pairs
(comma-separated, surrounding whitespace stripped); a comment failing the
grammar yields no pairs. -/
def parse_comment_metadata (comment : String) : List (String × String) :=
  let body :=
    if strStartsWith comment "&&" then comment.drop 2
    else if strStartsWith comment "&" then comment.drop 1
    else comment
  (body.splitOn ",").foldl
    (fun acc field =>
      match field.splitOn "=" with
      | [k, v] =>
        let k := k.trim
        let v := v.trim
        if k.isEmpty then acc else acc ++ [(k, v)]
      | _ => acc)
    []

/-- `_process_node_comments`: each comment either becomes annotations (when
metadata extraction is on, the comment starts with `&`, and the metadata
grammar yields pairs) or is appended verbatim to the node's comment list. -/
def process_node_comments (cfg : Config) (node : PNode) (node_comments : List String) : PNode :=
  node_comments.foldl
    (fun node comment =>
      if cfg.extractCommentMetadata && strStartsWith comment "&" then
        let annotations := parse_comment_metadata comment
        if !annotations.isEmpty then node.addAnnotations annotations
        else node.addComment comment
      else node.addComment comment)
    node

/-- `_finish_node`: apply the configured node hook, if any. -/
def finish_node (cfg : Config) (node : PNode) : PNode :=
  match cfg.finishNodeFunc with
  | some f => f node
  | none => node

/-- `_parse_tree_rooting_state`: rooting state for a tree with the given
rooting comment token, taking the `rooting` configuration into account.
The force policies are consulted before the comment; an unrecognized stored
policy raises `TypeError`. -/
def parse_tree_rooting_state (cfg : Config) (rooting_comment : String) :
    Except ErrKind (Option Bool) :=
  if cfg.rooting = some "force-unrooted" then .ok (some false)
  else if cfg.rooting = some "force-rooted" then .ok (some true)
  else if rooting_comment = "&R" || rooting_comment = "&r" then .ok (some true)
  else if rooting_comment = "&U" || rooting_comment = "&u" then .ok (some false)
  else if cfg.rooting = some "default-rooted" then .ok (some true)
  else if cfg.rooting = some "default-unrooted" then .ok (some false)
  else if cfg.rooting = none then .ok none
  else .error .typeError

/-- The loop body of `_process_tree_comments` over the comment batch,
threading the rooting-found and weighting-found flags.  The weight branch
with weight tracking enabled reads `stream_tokenizer.tree_weight_comment`,
but no name `stream_tokenizer` is defined in that scope, so Python raises
`NameError` there (the surrounding handlers catch only `IndexError` and
`ValueError`). -/
def process_tree_comments_loop (cfg : Config) :
    PTree → Bool → Bool → List String → Except ErrKind (PTree × Bool × Bool)
  | tree, rooting_found, weighting_found, [] => .ok (tree, rooting_found, weighting_found)
  | tree, rooting_found, weighting_found, comment :: rest =>
    if comment = "&u" || comment = "&U" || comment = "&r" || comment = "&R" then
      match parse_tree_rooting_state cfg comment with
      | .error e => .error e
      | .ok r =>
        process_tree_comments_loop cfg { tree with isRooted := r } true weighting_found rest
    else if strStartsWith comment "&W" || strStartsWith comment "&w" then
      if cfg.storeTreeWeights then
        .error .nameError
      else
        process_tree_comments_loop cfg { tree with comments := tree.comments ++ [comment] }
          rooting_found true rest
    else if cfg.extractCommentMetadata && strStartsWith comment "&" then
      let annotations := parse_comment_metadata comment
      if !annotations.isEmpty then
        process_tree_comments_loop cfg
          { tree with annotations := tree.annotations ++ annotations }
          rooting_found weighting_found rest
      else
        process_tree_comments_loop cfg { tree with comments := tree.comments ++ [comment] }
          rooting_found weighting_found rest
    else
      process_tree_comments_loop cfg { tree with comments := tree.comments ++ [comment] }
        rooting_found weighting_found rest

/-- `_process_tree_comments`: classify the tree's captured comment batch,
then apply the default rooting (and, when weight tracking is on, the default
weight of 1.0) if no corresponding directive was found. -/
def process_tree_comments (cfg : Config) (tree : PTree) (tree_comments : List String) :
    Except ErrKind PTree :=
  match process_tree_comments_loop cfg tree false false tree_comments with
  | .error e => .error e
  | .ok (tree, rooting_found, weighting_found) =>
    match (if !rooting_found then parse_tree_rooting_state cfg "" else .ok tree.isRooted) with
    | .error e => .error e
    | .ok r =>
      let tree := { tree with isRooted := r }
      let tree :=
        if cfg.storeTreeWeights && !weighting_found then { tree with weight := some 1 }
        else tree
      .ok tree

/-! ## The tree-statement parser state machine

`_parse_tree_node_description` is translated as three functions sharing a
fuel parameter (every loop iteration and every recursive call consumes at
least one unit; the driver supplies more than enough):

* `parse_tree_node_children` — the child-slot loop entered on `(`
  (lines 420-471 of the source);
* `comma_blank_nodes` — the inner `while current == ","` loop creating
  blank nodes for doubled separators (lines 432-440);
* `parse_tree_node_tail` — the label/edge-length/termination loop
  (lines 472-553).

Each function returns the updated taxon namespace and tokenizer state; the
statement-completion flag (`self.tree_statement_complete`) is returned by
`parse_tree_node_tail` (the field is reset to `False` at the start of every
tail loop, so the value observed after the outermost call is exactly the
outermost tail's result). -/

mutual

/-- Inner `while current == ","` loop: each further comma materializes one
blank node (comments pulled at creation) and advances. -/
def comma_blank_nodes (cfg : Config) :
    Nat → TkState → List PNode → Except ErrKind (List PNode × TkState)
  | 0, _, _ => .error .outOfFuel
  | fuel+1, st, children =>
    if st.current = some "," then
      let pulled := pull_captured_comments st
      let blank := finish_node cfg (process_node_comments cfg mkNode pulled.1)
      match require_next_token pulled.2 with
      | .error e => .error e
      | .ok (_, st) => comma_blank_nodes cfg fuel st (children ++ [blank])
    else .ok (children, st)

/-- Child-slot loop entered after the opening `(`: a `,` with no node yet
created materializes a leading blank node (without flagging a node as
created); doubled commas materialize further blanks; a `)` right after a
separator materializes a trailing blank only when no node was flagged as
created; any other token starts a child parsed recursively; `)` ends the
loop, advancing past it. -/
def parse_tree_node_children (cfg : Config) :
    Nat → TkState → List String → List PNode → Bool →
    Except ErrKind (List PNode × List String × TkState)
  | 0, _, _, _, _ => .error .outOfFuel
  | fuel+1, st, ns, children, node_created =>
    if st.current = some "," then
      -- no node created yet: ',' designates a preceding blank node
      -- (deliberately not flagged as created, cf. source lines 430/439)
      let (children, st) :=
        if !node_created then
          let pulled := pull_captured_comments st
          (children ++ [finish_node cfg (process_node_comments cfg mkNode pulled.1)],
           pulled.2)
        else (children, st)
      match require_next_token st with
      | .error e => .error e
      | .ok (_, st) =>
        match comma_blank_nodes cfg fuel st children with
        | .error e => .error e
        | .ok (children, st) =>
          let (children, st, node_created) :=
            if !node_created && st.current = some ")" then
              let pulled := pull_captured_comments st
              (children ++ [finish_node cfg (process_node_comments cfg mkNode pulled.1)],
               pulled.2, true)
            else (children, st, node_created)
          parse_tree_node_children cfg fuel st ns children node_created
    else if st.current = some ")" then
      -- end of child nodes
      match require_next_token st with
      | .error e => .error e
      | .ok (_, st) => .ok (children, ns, st)
    else
      -- a leaf node (if a label) or internal (if a parenthesis)
      let is_new_internal_node := st.current = some "("
      let pulled := pull_captured_comments st
      let new_node := process_node_comments cfg mkNode pulled.1
      match parse_tree_node_description cfg fuel pulled.2 ns new_node (some is_new_internal_node) with
      | .error e => .error e
      | .ok (child, ns, st, _) =>
        parse_tree_node_children cfg fuel st ns (children ++ [child]) true

/-- `_parse_tree_node_description`: populate the node (children if the
current token opens a parenthesized list, then label, edge length, comments)
and return it together with the statement-completion flag. -/
def parse_tree_node_description (cfg : Config) :
    Nat → TkState → List String → PNode → Option Bool →
    Except ErrKind (PNode × List String × TkState × Bool)
  | 0, _, _, _, _ => .error .outOfFuel
  | fuel+1, st, ns, node, is_internal_node =>
    let pulled := pull_captured_comments st
    let current_node_comments := pulled.1
    let st := pulled.2
    let afterChildren : Except ErrKind (PNode × List String × TkState) :=
      if st.current = some "(" then
        match require_next_token st with
        | .error e => .error e
        | .ok (_, st) =>
          match parse_tree_node_children cfg fuel st ns [] false with
          | .error e => .error e
          | .ok (children, ns, st) => .ok (node.setChildren children, ns, st)
      else .ok (node, ns, st)
    match afterChildren with
    | .error e => .error e
    | .ok (node, ns, st) =>
      -- the initial call (seed node) passes no explicit internal/leaf kind;
      -- it is inferred from the presence of children (allowing a
      -- single-tip tree); an unresolved kind behaves as a leaf below
      let is_internal : Bool :=
        match is_internal_node with
        | some b => b
        | none => !node.children.isEmpty
      parse_tree_node_tail cfg fuel st ns node current_node_comments false is_internal false

/-- The label/edge-length/termination loop of `_parse_tree_node_description`
(source lines 482-553).  Comments captured at any point extend the node's
comment batch; `)` and `,` finish the node without consuming the token; `;`
sets the completion flag and advances; `(` here is a malformed statement;
otherwise the token is a label (a second one is a malformed statement).
A `none` current token can only arrive here via the child-slot loop after a
nested `;`; the Python then crashes in the underscore fold
(`None.replace`), modelled as `attributeError`. -/
def parse_tree_node_tail (cfg : Config) :
    Nat → TkState → List String → PNode → List String → Bool → Bool → Bool →
    Except ErrKind (PNode × List String × TkState × Bool)
  | 0, _, _, _, _, _, _, _ => .error .outOfFuel
  | fuel+1, st, ns, node, current_node_comments, label_parsed, is_internal, flag =>
    let pulled := pull_captured_comments st
    let current_node_comments := current_node_comments ++ pulled.1
    let st := pulled.2
    if st.current = some ":" then
      match require_next_token st with
      | .error e => .error e
      | .ok (len_tok, st) =>
        let nodeRes : Except ErrKind PNode :=
          if !cfg.suppressEdgeLengths then
            match cfg.edgeLenParse len_tok with
            | none => .error .malformedStatement
            | some v => .ok (node.setEdgeLength v)
          else .ok node
        match nodeRes with
        | .error e => .error e
        | .ok node =>
          match require_next_token st with
          | .error e => .error e
          | .ok (_, st) =>
            parse_tree_node_tail cfg fuel st ns node current_node_comments
              label_parsed is_internal flag
    else if st.current = some ")" then
      -- closing of parent token
      .ok (finish_node cfg (process_node_comments cfg node current_node_comments),
           ns, st, flag)
    else if st.current = some ";" then
      -- end of tree statement
      let st := (next_token st).2
      .ok (finish_node cfg (process_node_comments cfg node current_node_comments),
           ns, st, true)
    else if st.current = some "," then
      -- end of this node
      .ok (finish_node cfg (process_node_comments cfg node current_node_comments),
           ns, st, flag)
    else if st.current = some "(" then
      -- start of another node without finishing this node
      .error .malformedStatement
    else
      if label_parsed then .error .malformedStatement
      else
        match st.current with
        | none => .error .attributeError
        | some tok =>
          let label := foldLabel cfg tok
          let (node, ns) :=
            if (is_internal && cfg.suppressInternalNodeTaxa)
                || (!is_internal && cfg.suppressExternalNodeTaxa) then
              (node.setLabel label, ns)
            else
              let r := require_taxon_for_symbol ns label
              (node.setTaxon r.1, r.2)
          match require_next_token st with
          | .error e => .error e
          | .ok (_, st) =>
            parse_tree_node_tail cfg fuel st ns node current_node_comments
              true is_internal flag

end

/-- The statement-start skip loop of `_parse_tree_statement` (lines
304-308): skip leading `;` or empty tokens, each skip discarding the
previously captured comment batch and pulling a fresh one. -/
def skip_leading_semis : Nat → List String → TkState → List String × TkState
  | 0, tree_comments, st => (tree_comments, st)
  | fuel+1, tree_comments, st =>
    if (st.current = some ";" || st.current = none) && !is_eof st then
      match require_next_token st with
      | .error _ => (tree_comments, st)  -- unreachable: the eof guard ensures a token remains
      | .ok (_, st) =>
        let pulled := pull_captured_comments st
        skip_leading_semis fuel pulled.1 pulled.2
    else (tree_comments, st)

/-- The trailing-semicolon loop of `_parse_tree_statement` (lines 333-335):
consume any number of `;` tokens, discarding comments captured along them. -/
def consume_trailing_semis : Nat → TkState → TkState
  | 0, st => st
  | fuel+1, st =>
    if st.current = some ";" && !is_eof st then
      consume_trailing_semis fuel (next_token (clear_captured_comments st)).2
    else st

/-- The part of `_parse_tree_statement` after the opening `(` has been
found: construct the tree, classify the captured comment batch, parse the
node description rooted at the seed node, fail with an
incomplete-tree-statement error if the completion flag was never set, then
consume trailing semicolons. -/
def parse_tree_statement_after_paren (cfg : Config) (fuel : Nat) (st : TkState)
    (ns : List String) (tree_comments : List String) :
    Except ErrKind (PTree × List String × TkState) :=
  match process_tree_comments cfg mkTree tree_comments with
  | .error e => .error e
  | .ok tree =>
    match parse_tree_node_description cfg fuel st ns tree.seed none with
    | .error e => .error e
    | .ok (seed, ns, st, complete) =>
      if !complete then .error .incompleteTreeStatement
      else .ok ({ tree with seed := seed }, ns, consume_trailing_semis fuel st)

/-- `_parse_tree_statement`: parse a single tree statement; `.ok none`
means end of stream (no further statement). -/
def parse_tree_statement (cfg : Config) (fuel : Nat) (st : TkState) (ns : List String) :
    Except ErrKind (Option PTree × List String × TkState) :=
  let pulled := pull_captured_comments st
  let (tree_comments, st) := skip_leading_semis fuel pulled.1 pulled.2
  if is_eof st then .ok (none, ns, st)
  else if st.current ≠ some "(" then .error .invalidToken
  else
    match parse_tree_statement_after_paren cfg fuel st ns tree_comments with
    | .error e => .error e
    | .ok (tree, ns, st) => .ok (some tree, ns, st)

/-- The body of `tree_iter`'s `while True` loop: each iteration parses one
statement and yields its result; note that the sentinel `None` returned at
end of stream is yielded before the `if tree is None` check stops the
generator, so it appears in the yielded sequence.  Returns the yielded
elements and the error, if any, that escaped the generator. -/
def tree_iter_loop (cfg : Config) :
    Nat → TkState → List String → List (Option PTree) →
    List (Option PTree) × Option ErrKind
  | 0, _, _, acc => (acc, some .outOfFuel)
  | fuel+1, st, ns, acc =>
    match parse_tree_statement cfg fuel st ns with
    | .error e => (acc, some e)
    | .ok (tree, ns, st) =>
      match tree with
      | none => (acc ++ [none], none)
      | some t => tree_iter_loop cfg fuel st ns (acc ++ [some t])

/-- `tree_iter` over a character stream: the full sequence of elements the
generator yields, paired with the error that aborts it, if any. -/
def tree_iter_yields (cfg : Config) (input : String) :
    List (Option PTree) × Option ErrKind :=
  tree_iter_loop cfg (input.length * 4 + 64) (initTkState input) [] []

/-! ## Extractors used to state concrete observations -/

/-- The first tree yielded, if any. -/
def firstTree (r : List (Option PTree) × Option ErrKind) : Option PTree :=
  match r.1 with
  | some t :: _ => some t
  | _ => none

/-- Rootedness of the first yielded tree. -/
def firstTreeRooted (r : List (Option PTree) × Option ErrKind) : Option (Option Bool) :=
  (firstTree r).map PTree.isRooted

/-- Comment list of the first yielded tree. -/
def firstTreeComments (r : List (Option PTree) × Option ErrKind) : Option (List String) :=
  (firstTree r).map PTree.comments

/-- For each child of a node: its plain label and its taxon reference. -/
def childSummary (n : PNode) : List (Option String × Option String) :=
  n.children.map fun c => (c.label, c.taxon)

/-- (label, taxon) of the root and of each of its children, for the first
yielded tree. -/
def firstTreeShape (r : List (Option PTree) × Option ErrKind) :
    Option ((Option String × Option String) × List (Option String × Option String)) :=
  (firstTree r).map fun t => ((t.seed.label, t.seed.taxon), childSummary t.seed)

/-- Which yielded elements are actual trees (`true`) rather than the `None`
sentinel (`false`), together with the escaping error, if any. -/
def yieldShape (r : List (Option PTree) × Option ErrKind) : List Bool × Option ErrKind :=
  (r.1.map Option.isSome, r.2)

/-- The completion flag produced by the node-description recursion of one
statement (after the comment batch has been classified), or `none` when
either step fails. -/
def statement_complete_flag (cfg : Config) (fuel : Nat) (st : TkState)
    (ns : List String) (tree_comments : List String) : Option Bool :=
  match process_tree_comments cfg mkTree tree_comments with
  | .error _ => none
  | .ok tree =>
    match parse_tree_node_description cfg fuel st ns tree.seed none with
    | .error _ => none
    | .ok (_, _, _, complete) => some complete

/-- Whether `_set_rooting` accepts a configuration value. -/
def rooting_accepted (val : Option String) : Bool :=
  match set_rooting val with
  | .ok _ => true
  | .error _ => false

/-- Overwrite the two configuration fields that `__init__` stores but that
no parsing method reads (`case_sensitive_taxon_labels`,
`allow_duplicate_taxon_labels`). -/
def updTaxonOpts (cfg : Config) (b d : Bool) : Config :=
  { cfg with caseSensitiveTaxonLabels := b, allowDuplicateTaxonLabels := d }

/-- Number of children of the first yielded tree's root. -/
def firstTreeRootDegree (r : List (Option PTree) × Option ErrKind) : Option Nat :=
  (firstTree r).map fun t => t.seed.children.length

/-! ## Shared lemmas about the node tail loop -/

/-- In the label/termination loop, a current `(` token is a malformed
statement (source line 514: a node cannot restart without a separator). -/
theorem tail_paren_malformed (cfg : Config) (fuel : Nat) (st : TkState)
    (ns : List String) (node : PNode) (nc : List String)
    (lp isInt flag : Bool) (h : st.current = some "(") :
    parse_tree_node_tail cfg (fuel+1) st ns node nc lp isInt flag =
      .error .malformedStatement := by
  simp [parse_tree_node_tail, pull_captured_comments, h]

/-- In the label/termination loop, a label token arriving when a label has
already been parsed is a malformed statement (source line 524). -/
theorem tail_dup_label (cfg : Config) (fuel : Nat) (st : TkState)
    (ns : List String) (node : PNode) (nc : List String)
    (isInt flag : Bool) (tok : String) (h : st.current = some tok)
    (h1 : tok ≠ ":") (h2 : tok ≠ ")") (h3 : tok ≠ ";") (h4 : tok ≠ ",") (h5 : tok ≠ "(") :
    parse_tree_node_tail cfg (fuel+1) st ns node nc true isInt flag =
      .error .malformedStatement := by
  simp [parse_tree_node_tail, pull_captured_comments, h, h1, h2, h3, h4, h5]

/-- In the label/termination loop, a `:` whose following token fails the
configured edge-length cast is a malformed statement (source line 490). -/
theorem tail_bad_length (cfg : Config) (fuel : Nat) (st : TkState)
    (ns : List String) (node : PNode) (nc : List String)
    (lp isInt flag : Bool) (len_tok : String) (st' : TkState)
    (h : st.current = some ":")
    (hr : require_next_token (clear_captured_comments st) = .ok (len_tok, st'))
    (hs : cfg.suppressEdgeLengths = false)
    (hp : cfg.edgeLenParse len_tok = none) :
    parse_tree_node_tail cfg (fuel+1) st ns node nc lp isInt flag =
      .error .malformedStatement := by
  simp only [clear_captured_comments] at hr
  rw [show st.current = some ":" from h] at hr
  simp [parse_tree_node_tail, pull_captured_comments, h]
  rw [hr]
  simp [hs, hp]

/-- In the label/termination loop of an internal node with internal taxa
suppressed, a first label token is stored as the node's plain-string label
(no taxon resolved, namespace unchanged) and the loop continues. -/
theorem tail_label_internal (cfg : Config) (fuel : Nat) (st : TkState)
    (ns : List String) (node : PNode) (nc : List String) (flag : Bool)
    (tok tok2 : String) (st' : TkState)
    (hsup : cfg.suppressInternalNodeTaxa = true)
    (h : st.current = some tok)
    (h1 : tok ≠ ":") (h2 : tok ≠ ")") (h3 : tok ≠ ";") (h4 : tok ≠ ",") (h5 : tok ≠ "(")
    (hr : require_next_token (clear_captured_comments st) = .ok (tok2, st')) :
    parse_tree_node_tail cfg (fuel+1) st ns node nc false true flag =
      parse_tree_node_tail cfg fuel st' ns (node.setLabel (foldLabel cfg tok))
        (nc ++ st.captured) true true flag := by
  simp only [clear_captured_comments] at hr
  rw [show st.current = some tok from h] at hr
  simp [parse_tree_node_tail, pull_captured_comments, h, h1, h2, h3, h4, h5, hsup]
  rw [hr]

/-- In the label/termination loop of a leaf node with external taxa not
suppressed, a first label token is resolved through the taxon namespace and
bound as the node's taxon, and the loop continues. -/
theorem tail_label_leaf (cfg : Config) (fuel : Nat) (st : TkState)
    (ns : List String) (node : PNode) (nc : List String) (flag : Bool)
    (tok tok2 : String) (st' : TkState)
    (hsup : cfg.suppressExternalNodeTaxa = false)
    (h : st.current = some tok)
    (h1 : tok ≠ ":") (h2 : tok ≠ ")") (h3 : tok ≠ ";") (h4 : tok ≠ ",") (h5 : tok ≠ "(")
    (hr : require_next_token (clear_captured_comments st) = .ok (tok2, st')) :
    parse_tree_node_tail cfg (fuel+1) st ns node nc false false flag =
      parse_tree_node_tail cfg fuel st'
        (require_taxon_for_symbol ns (foldLabel cfg tok)).2
        (node.setTaxon (require_taxon_for_symbol ns (foldLabel cfg tok)).1)
        (nc ++ st.captured) true false flag := by
  simp only [clear_captured_comments] at hr
  rw [show st.current = some tok from h] at hr
  simp [parse_tree_node_tail, pull_captured_comments, h, h1, h2, h3, h4, h5, hsup]
  rw [hr]

/-- If the node-description recursion of a statement returns with the
completion flag unset, the statement fails with an incomplete-tree-statement
error (source lines 327-332). -/
theorem after_paren_incomplete (cfg : Config) (fuel : Nat) (st : TkState)
    (ns : List String) (tc : List String)
    (h : statement_complete_flag cfg fuel st ns tc = some false) :
    parse_tree_statement_after_paren cfg fuel st ns tc =
      .error .incompleteTreeStatement := by
  unfold statement_complete_flag at h
  unfold parse_tree_statement_after_paren
  split at h
  · simp_all
  · split at h
    · simp_all
    · simp_all

/-! ## Shared lemmas about the child-slot loop -/

/-- `PNode.addComment` changes only the comment list. -/
theorem addComment_projs (n : PNode) (c : String) :
    (n.addComment c).label = n.label ∧ (n.addComment c).taxon = n.taxon
  ∧ (n.addComment c).edgeLength = n.edgeLength
  ∧ (n.addComment c).children = n.children := by
  cases n
  exact ⟨rfl, rfl, rfl, rfl⟩

/-- `PNode.addAnnotations` changes only the annotation list. -/
theorem addAnnotations_projs (n : PNode) (a : List (String × String)) :
    (n.addAnnotations a).label = n.label ∧ (n.addAnnotations a).taxon = n.taxon
  ∧ (n.addAnnotations a).edgeLength = n.edgeLength
  ∧ (n.addAnnotations a).children = n.children := by
  cases n
  exact ⟨rfl, rfl, rfl, rfl⟩

/-- `_process_node_comments` touches only the comment and annotation lists:
label, taxon, edge length and children pass through unchanged, so a node
built from `node_factory()` stays blank through comment processing. -/
theorem process_node_comments_proj (cfg : Config) :
    ∀ (cs : List String) (node : PNode),
      (process_node_comments cfg node cs).label = node.label
    ∧ (process_node_comments cfg node cs).taxon = node.taxon
    ∧ (process_node_comments cfg node cs).edgeLength = node.edgeLength
    ∧ (process_node_comments cfg node cs).children = node.children := by
  intro cs
  induction cs with
  | nil => intro node; exact ⟨rfl, rfl, rfl, rfl⟩
  | cons x cs ih =>
    intro node
    simp only [process_node_comments, List.foldl_cons] at ih ⊢
    split
    · split
      · obtain ⟨g1, g2, g3, g4⟩ := ih (node.addAnnotations (parse_comment_metadata x))
        obtain ⟨a1, a2, a3, a4⟩ := addAnnotations_projs node (parse_comment_metadata x)
        exact ⟨g1.trans a1, g2.trans a2, g3.trans a3, g4.trans a4⟩
      · obtain ⟨g1, g2, g3, g4⟩ := ih (node.addComment x)
        obtain ⟨a1, a2, a3, a4⟩ := addComment_projs node x
        exact ⟨g1.trans a1, g2.trans a2, g3.trans a3, g4.trans a4⟩
    · obtain ⟨g1, g2, g3, g4⟩ := ih (node.addComment x)
      obtain ⟨a1, a2, a3, a4⟩ := addComment_projs node x
      exact ⟨g1.trans a1, g2.trans a2, g3.trans a3, g4.trans a4⟩

/-- Inner comma loop, step: every further consecutive `,` materializes one
more blank node (built from the captured comments) and advances (source
lines 432-440). -/
theorem comma_blank_step (cfg : Config) (fuel : Nat) (st : TkState)
    (children : List PNode) (tok2 : String) (st' : TkState)
    (h : st.current = some ",")
    (hr : require_next_token (clear_captured_comments st) = .ok (tok2, st')) :
    comma_blank_nodes cfg (fuel+1) st children =
      comma_blank_nodes cfg fuel st'
        (children ++ [finish_node cfg (process_node_comments cfg mkNode st.captured)]) := by
  simp only [clear_captured_comments] at hr
  rw [show st.current = some "," from h] at hr
  simp [comma_blank_nodes, pull_captured_comments, h]
  rw [hr]

/-- Inner comma loop, exit: any token other than `,` stops the loop without
adding a node. -/
theorem comma_blank_stop (cfg : Config) (fuel : Nat) (st : TkState)
    (children : List PNode) (h : st.current ≠ some ",") :
    comma_blank_nodes cfg (fuel+1) st children = .ok (children, st) := by
  simp [comma_blank_nodes, h]

/-- Child-slot loop, `,` with no node yet created (source lines 421-448):
one leading blank node is materialized before advancing (the appended
element below), the inner comma loop runs, and afterwards one trailing
blank node is materialized exactly when the next token is `)` — in which
case the node-created flag is finally set. -/
theorem children_comma_no_node (cfg : Config) (fuel : Nat) (st : TkState)
    (ns : List String) (children : List PNode) (tok2 : String) (st2 : TkState)
    (children3 : List PNode) (st3 : TkState)
    (h : st.current = some ",")
    (hr : require_next_token (clear_captured_comments st) = .ok (tok2, st2))
    (hb : comma_blank_nodes cfg fuel st2
        (children ++ [finish_node cfg (process_node_comments cfg mkNode st.captured)]) =
      .ok (children3, st3)) :
    parse_tree_node_children cfg (fuel+1) st ns children false =
      if st3.current = some ")" then
        parse_tree_node_children cfg fuel (clear_captured_comments st3) ns
          (children3 ++ [finish_node cfg (process_node_comments cfg mkNode st3.captured)])
          true
      else
        parse_tree_node_children cfg fuel st3 ns children3 false := by
  simp only [clear_captured_comments] at hr
  rw [show st.current = some "," from h] at hr
  simp [parse_tree_node_children, pull_captured_comments, h]
  rw [hr]
  dsimp only
  rw [hb]
  dsimp only
  by_cases h3 : st3.current = some ")"
  · simp [h3, pull_captured_comments, clear_captured_comments]
  · simp [h3]

/-- Child-slot loop, `,` after a node was created (source lines 421-448 with
`node_created` true): no leading blank is materialized, and no trailing
blank either, whatever token follows the comma run — a trailing separator
after a real child yields nothing. -/
theorem children_comma_after_node (cfg : Config) (fuel : Nat) (st : TkState)
    (ns : List String) (children : List PNode) (tok2 : String) (st2 : TkState)
    (children3 : List PNode) (st3 : TkState)
    (h : st.current = some ",")
    (hr : require_next_token st = .ok (tok2, st2))
    (hb : comma_blank_nodes cfg fuel st2 children = .ok (children3, st3)) :
    parse_tree_node_children cfg (fuel+1) st ns children true =
      parse_tree_node_children cfg fuel st3 ns children3 true := by
  simp [parse_tree_node_children, h]
  rw [hr]
  dsimp only
  rw [hb]

/-! ## Shared lemmas about tree-comment classification -/

/-- Every rooting directive in the batch overwrites the tree's rootedness,
so after the loop the value of the last directive stands. -/
theorem ptc_loop_last_rooting (cfg : Config) (c : String)
    (hc : c = "&u" ∨ c = "&U" ∨ c = "&r" ∨ c = "&R") (r : Option Bool)
    (hr : parse_tree_rooting_state cfg c = .ok r) :
    ∀ (cs : List String) (tree : PTree) (rf wf : Bool) (out : PTree × Bool × Bool),
      process_tree_comments_loop cfg tree rf wf (cs ++ [c]) = .ok out →
      out.1.isRooted = r ∧ out.2.1 = true := by
  intro cs
  have hcond : (c = "&u" || c = "&U" || c = "&r" || c = "&R") = true := by
    rcases hc with h|h|h|h <;> simp [h]
  induction cs with
  | nil =>
    intro tree rf wf out h
    simp only [List.nil_append, process_tree_comments_loop, hcond, if_true, hr] at h
    cases h
    simp
  | cons x cs ih =>
    intro tree rf wf out h
    simp only [List.cons_append, process_tree_comments_loop] at h
    repeat' split at h
    all_goals first
      | exact ih _ _ _ _ h
      | simp_all

/-- A batch containing no rooting directive leaves the rooting-found flag
unchanged through the loop. -/
theorem ptc_loop_no_rooting (cfg : Config) :
    ∀ (cs : List String) (tree : PTree) (rf wf : Bool) (out : PTree × Bool × Bool),
      (∀ c ∈ cs, ¬(c = "&u" ∨ c = "&U" ∨ c = "&r" ∨ c = "&R")) →
      process_tree_comments_loop cfg tree rf wf cs = .ok out →
      out.2.1 = rf := by
  intro cs
  induction cs with
  | nil =>
    intro tree rf wf out _ h
    simp only [process_tree_comments_loop] at h
    cases h
    rfl
  | cons x cs ih =>
    intro tree rf wf out hno h
    have hx : ¬(x = "&u" ∨ x = "&U" ∨ x = "&r" ∨ x = "&R") := hno x (by simp)
    have hcond : (x = "&u" || x = "&U" || x = "&r" || x = "&R") = false := by
      simp only [Bool.or_eq_false_iff]
      push_neg at hx
      simp [hx.1, hx.2.1, hx.2.2.1, hx.2.2.2]
    have hno' : ∀ c ∈ cs, ¬(c = "&u" ∨ c = "&U" ∨ c = "&r" ∨ c = "&R") :=
      fun c hcmem => hno c (by simp [hcmem])
    simp only [process_tree_comments_loop, hcond] at h
    repeat' split at h
    all_goals first
      | exact ih _ _ _ _ hno' h
      | simp_all

/-- When the comment batch ends with a rooting directive, the processed
tree's rootedness is exactly the rooting state of that last directive. -/
theorem ptc_last_rooting_wins (cfg : Config) (tree : PTree) (cs : List String)
    (c : String) (r : Option Bool) (t' : PTree)
    (hc : c = "&u" ∨ c = "&U" ∨ c = "&r" ∨ c = "&R")
    (hr : parse_tree_rooting_state cfg c = .ok r)
    (h : process_tree_comments cfg tree (cs ++ [c]) = .ok t') :
    t'.isRooted = r := by
  unfold process_tree_comments at h
  split at h
  · simp_all
  · rename_i tree2 rf wf heq
    have h12 := ptc_loop_last_rooting cfg c hc r hr cs tree false false (tree2, rf, wf) heq
    simp only at h12
    obtain ⟨h1, h2⟩ := h12
    subst h2
    simp only [Bool.not_true, Bool.false_eq_true, if_false] at h
    repeat' split at h
    all_goals first
      | (simp_all; done)
      | (subst h; simp [h1]; done)
      | (simp only [Except.ok.injEq] at h; subst h; simp [h1])

/-- When the comment batch contains no rooting directive, the processed
tree's rootedness is the configured default (the rooting state of the empty
comment). -/
theorem ptc_no_rooting_default (cfg : Config) (tree : PTree) (cs : List String) (t' : PTree)
    (hno : ∀ c ∈ cs, ¬(c = "&u" ∨ c = "&U" ∨ c = "&r" ∨ c = "&R"))
    (h : process_tree_comments cfg tree cs = .ok t') :
    ∃ r, parse_tree_rooting_state cfg "" = .ok r ∧ t'.isRooted = r := by
  unfold process_tree_comments at h
  split at h
  · simp_all
  · rename_i tree2 rf wf heq
    have h2 := ptc_loop_no_rooting cfg cs tree false false (tree2, rf, wf) hno heq
    simp only at h2
    subst h2
    simp only [Bool.not_false, if_true] at h
    split at h
    · simp_all
    · rename_i r' hr'
      refine ⟨r', hr', ?_⟩
      repeat' split at h
      all_goals first
        | (simp_all; done)
        | (subst h; simp; done)
        | (simp only [Except.ok.injEq] at h; subst h; simp)

/-! ## Configuration-independence lemmas (options stored but never read) -/

theorem updTaxonOpts_rooting (cfg : Config) (b d : Bool) :
    (updTaxonOpts cfg b d).rooting = cfg.rooting := rfl

theorem updTaxonOpts_edgeLenParse (cfg : Config) (b d : Bool) :
    (updTaxonOpts cfg b d).edgeLenParse = cfg.edgeLenParse := rfl

theorem updTaxonOpts_suppressEdgeLengths (cfg : Config) (b d : Bool) :
    (updTaxonOpts cfg b d).suppressEdgeLengths = cfg.suppressEdgeLengths := rfl

theorem updTaxonOpts_extractCommentMetadata (cfg : Config) (b d : Bool) :
    (updTaxonOpts cfg b d).extractCommentMetadata = cfg.extractCommentMetadata := rfl

theorem updTaxonOpts_storeTreeWeights (cfg : Config) (b d : Bool) :
    (updTaxonOpts cfg b d).storeTreeWeights = cfg.storeTreeWeights := rfl

theorem updTaxonOpts_finishNodeFunc (cfg : Config) (b d : Bool) :
    (updTaxonOpts cfg b d).finishNodeFunc = cfg.finishNodeFunc := rfl

theorem updTaxonOpts_preserveUnderscores (cfg : Config) (b d : Bool) :
    (updTaxonOpts cfg b d).preserveUnderscores = cfg.preserveUnderscores := rfl

theorem updTaxonOpts_suppressInternalNodeTaxa (cfg : Config) (b d : Bool) :
    (updTaxonOpts cfg b d).suppressInternalNodeTaxa = cfg.suppressInternalNodeTaxa := rfl

theorem updTaxonOpts_suppressExternalNodeTaxa (cfg : Config) (b d : Bool) :
    (updTaxonOpts cfg b d).suppressExternalNodeTaxa = cfg.suppressExternalNodeTaxa := rfl

theorem foldLabel_upd (cfg : Config) (b d : Bool) (tok : String) :
    foldLabel (updTaxonOpts cfg b d) tok = foldLabel cfg tok := by
  simp [foldLabel, updTaxonOpts_preserveUnderscores]

theorem finish_node_upd (cfg : Config) (b d : Bool) (node : PNode) :
    finish_node (updTaxonOpts cfg b d) node = finish_node cfg node := by
  simp [finish_node, updTaxonOpts_finishNodeFunc]

theorem process_node_comments_upd (cfg : Config) (b d : Bool) (node : PNode)
    (cs : List String) :
    process_node_comments (updTaxonOpts cfg b d) node cs =
      process_node_comments cfg node cs := by
  simp only [process_node_comments, updTaxonOpts_extractCommentMetadata]

theorem parse_tree_rooting_state_upd (cfg : Config) (b d : Bool) (rc : String) :
    parse_tree_rooting_state (updTaxonOpts cfg b d) rc =
      parse_tree_rooting_state cfg rc := by
  simp [parse_tree_rooting_state, updTaxonOpts_rooting]

theorem ptc_loop_upd (cfg : Config) (b d : Bool) :
    ∀ (cs : List String) (tree : PTree) (rf wf : Bool),
      process_tree_comments_loop (updTaxonOpts cfg b d) tree rf wf cs =
        process_tree_comments_loop cfg tree rf wf cs := by
  intro cs
  induction cs with
  | nil => intro tree rf wf; rfl
  | cons x cs ih =>
    intro tree rf wf
    simp only [process_tree_comments_loop, updTaxonOpts_storeTreeWeights,
      updTaxonOpts_extractCommentMetadata, parse_tree_rooting_state_upd, ih]

theorem process_tree_comments_upd (cfg : Config) (b d : Bool) (tree : PTree)
    (cs : List String) :
    process_tree_comments (updTaxonOpts cfg b d) tree cs =
      process_tree_comments cfg tree cs := by
  simp only [process_tree_comments, ptc_loop_upd, parse_tree_rooting_state_upd,
    updTaxonOpts_storeTreeWeights]

theorem comma_blank_nodes_upd (cfg : Config) (b d : Bool) :
    ∀ (fuel : Nat) (st : TkState) (children : List PNode),
      comma_blank_nodes (updTaxonOpts cfg b d) fuel st children =
        comma_blank_nodes cfg fuel st children := by
  intro fuel
  induction fuel with
  | zero => intro st children; rfl
  | succ n ih =>
    intro st children
    simp only [comma_blank_nodes, finish_node_upd, process_node_comments_upd, ih]

/-- The three mutually recursive node-description functions never read the
`caseSensitiveTaxonLabels` or `allowDuplicateTaxonLabels` fields. -/
theorem parse_upd (cfg : Config) (b d : Bool) :
    ∀ fuel : Nat,
      (∀ (st : TkState) (ns : List String) (children : List PNode) (created : Bool),
        parse_tree_node_children (updTaxonOpts cfg b d) fuel st ns children created =
          parse_tree_node_children cfg fuel st ns children created)
      ∧ (∀ (st : TkState) (ns : List String) (node : PNode) (ii : Option Bool),
        parse_tree_node_description (updTaxonOpts cfg b d) fuel st ns node ii =
          parse_tree_node_description cfg fuel st ns node ii)
      ∧ (∀ (st : TkState) (ns : List String) (node : PNode) (nc : List String)
            (lp ii fl : Bool),
        parse_tree_node_tail (updTaxonOpts cfg b d) fuel st ns node nc lp ii fl =
          parse_tree_node_tail cfg fuel st ns node nc lp ii fl) := by
  intro fuel
  induction fuel with
  | zero => exact ⟨fun _ _ _ _ => rfl, fun _ _ _ _ => rfl, fun _ _ _ _ _ _ _ => rfl⟩
  | succ n ih =>
    obtain ⟨ih1, ih2, ih3⟩ := ih
    refine ⟨fun st ns children created => ?_, fun st ns node ii => ?_,
      fun st ns node nc lp ii fl => ?_⟩
    · simp only [parse_tree_node_children, finish_node_upd, process_node_comments_upd,
        comma_blank_nodes_upd, ih1, ih2]
    · simp only [parse_tree_node_description, ih1, ih3]
    · simp only [parse_tree_node_tail, updTaxonOpts_suppressEdgeLengths,
        updTaxonOpts_edgeLenParse, updTaxonOpts_suppressInternalNodeTaxa,
        updTaxonOpts_suppressExternalNodeTaxa, finish_node_upd,
        process_node_comments_upd, foldLabel_upd, ih3]

theorem after_paren_upd (cfg : Config) (b d : Bool) (fuel : Nat) (st : TkState)
    (ns tc : List String) :
    parse_tree_statement_after_paren (updTaxonOpts cfg b d) fuel st ns tc =
      parse_tree_statement_after_paren cfg fuel st ns tc := by
  simp only [parse_tree_statement_after_paren, process_tree_comments_upd,
    (parse_upd cfg b d fuel).2.1]

theorem parse_tree_statement_upd (cfg : Config) (b d : Bool) (fuel : Nat)
    (st : TkState) (ns : List String) :
    parse_tree_statement (updTaxonOpts cfg b d) fuel st ns =
      parse_tree_statement cfg fuel st ns := by
  simp only [parse_tree_statement, after_paren_upd]

theorem tree_iter_loop_upd (cfg : Config) (b d : Bool) :
    ∀ (fuel : Nat) (st : TkState) (ns : List String) (acc : List (Option PTree)),
      tree_iter_loop (updTaxonOpts cfg b d) fuel st ns acc =
        tree_iter_loop cfg fuel st ns acc := by
  intro fuel
  induction fuel with
  | zero => intro st ns acc; rfl
  | succ n ih =>
    intro st ns acc
    simp only [tree_iter_loop, parse_tree_statement_upd, ih]

/-- The whole yielded tree sequence is unchanged by either of the two
stored-but-unread options. -/
theorem tree_iter_yields_indep (cfg : Config) (b1 d1 b2 d2 : Bool) (input : String) :
    tree_iter_yields (updTaxonOpts cfg b1 d1) input =
      tree_iter_yields (updTaxonOpts cfg b2 d2) input := by
  simp only [tree_iter_yields, tree_iter_loop_upd]

/-! ## The claims -/

/-- Claim C1 (code bug): the claim says a malformed weight payload in a
weight-directive comment is caught and the comment demoted to an opaque
comment on the tree's comment list without an error.  The code instead
references the undefined name `stream_tokenizer` in that branch, so with
weight tracking enabled ANY weight-directive comment (malformed payload or
not) raises `NameError`, which the surrounding `IndexError`/`ValueError`
handlers do not catch; no tree is yielded and nothing is appended to the
comment list.  With weight tracking disabled the comment is merely stored
verbatim (third conjunct). -/
theorem claim_C1_weight_crash :
    yieldShape (tree_iter_yields { defaultConfig with storeTreeWeights := true }
        "[&W oops](A,B);") = ([], some .nameError)
  ∧ yieldShape (tree_iter_yields { defaultConfig with storeTreeWeights := true }
        "[&W 1/2](A,B);") = ([], some .nameError)
  ∧ firstTreeComments (tree_iter_yields defaultConfig "[&W oops](A,B);") =
      some ["&W oops"] := by
  refine ⟨by decide, by decide, by decide⟩

/-- Claim C2 (counterexample): the claim implies a trailing separator always
yields a blank child, so `"(A,);"` would have two root children (`A` and a
blank); the code materializes the trailing blank only when no node was
flagged as created in the child list, so `"(A,);"` parses to exactly one
root child `A`. -/
theorem claim_C2_counterexample :
    firstTreeRootDegree (tree_iter_yields defaultConfig "(A,);") = some 1
  ∧ firstTreeShape (tree_iter_yields defaultConfig "(A,);") =
      some ((none, none), [(none, some "A")]) := by
  refine ⟨by decide, by decide⟩

/-- Claim C2 (amended): a `,` with no node yet flagged as created in the
current child list materializes one leading blank child and, after the inner
comma loop, one trailing blank child exactly when the next token is `)`
(first conjunct, general over every configuration and loop state); a `,`
after a created node materializes neither, whatever follows (second
conjunct), so a trailing separator after a real child yields no blank;
each further consecutive `,` in the inner loop materializes one more blank
and any other token stops it (third and fourth conjuncts); the materialized
nodes are truly blank — no label, no taxon, no edge length, no children
(fifth conjunct).  Concretely: `"(,A,,B);"` yields exactly four root
children blank, `A`, blank, `B` in order, `"(,);"` two blanks, `"(,,);"`
three blanks, `"(A,,B);"` yields `A`, blank, `B`, and `"(A,B,);"` just
`A`, `B`. -/
theorem claim_C2_amended :
    (∀ (cfg : Config) (fuel : Nat) (st : TkState) (ns : List String)
        (children : List PNode) (tok2 : String) (st2 : TkState)
        (children3 : List PNode) (st3 : TkState),
      st.current = some "," →
      require_next_token (clear_captured_comments st) = .ok (tok2, st2) →
      comma_blank_nodes cfg fuel st2
          (children ++ [finish_node cfg (process_node_comments cfg mkNode st.captured)]) =
        .ok (children3, st3) →
      parse_tree_node_children cfg (fuel+1) st ns children false =
        if st3.current = some ")" then
          parse_tree_node_children cfg fuel (clear_captured_comments st3) ns
            (children3 ++ [finish_node cfg (process_node_comments cfg mkNode st3.captured)])
            true
        else
          parse_tree_node_children cfg fuel st3 ns children3 false)
  ∧ (∀ (cfg : Config) (fuel : Nat) (st : TkState) (ns : List String)
        (children : List PNode) (tok2 : String) (st2 : TkState)
        (children3 : List PNode) (st3 : TkState),
      st.current = some "," →
      require_next_token st = .ok (tok2, st2) →
      comma_blank_nodes cfg fuel st2 children = .ok (children3, st3) →
      parse_tree_node_children cfg (fuel+1) st ns children true =
        parse_tree_node_children cfg fuel st3 ns children3 true)
  ∧ (∀ (cfg : Config) (fuel : Nat) (st : TkState) (children : List PNode)
        (tok2 : String) (st' : TkState),
      st.current = some "," →
      require_next_token (clear_captured_comments st) = .ok (tok2, st') →
      comma_blank_nodes cfg (fuel+1) st children =
        comma_blank_nodes cfg fuel st'
          (children ++ [finish_node cfg (process_node_comments cfg mkNode st.captured)]))
  ∧ (∀ (cfg : Config) (fuel : Nat) (st : TkState) (children : List PNode),
      st.current ≠ some "," →
      comma_blank_nodes cfg (fuel+1) st children = .ok (children, st))
  ∧ (∀ (cfg : Config) (cs : List String),
      (process_node_comments cfg mkNode cs).label = none
    ∧ (process_node_comments cfg mkNode cs).taxon = none
    ∧ (process_node_comments cfg mkNode cs).edgeLength = none
    ∧ (process_node_comments cfg mkNode cs).children = [])
  ∧ firstTreeShape (tree_iter_yields defaultConfig "(,A,,B);") =
      some ((none, none), [(none, none), (none, some "A"), (none, none), (none, some "B")])
  ∧ firstTreeShape (tree_iter_yields defaultConfig "(,);") =
      some ((none, none), [(none, none), (none, none)])
  ∧ firstTreeShape (tree_iter_yields defaultConfig "(,,);") =
      some ((none, none), [(none, none), (none, none), (none, none)])
  ∧ firstTreeShape (tree_iter_yields defaultConfig "(A,,B);") =
      some ((none, none), [(none, some "A"), (none, none), (none, some "B")])
  ∧ firstTreeShape (tree_iter_yields defaultConfig "(A,B,);") =
      some ((none, none), [(none, some "A"), (none, some "B")]) := by
  refine ⟨?_, ?_, ?_, ?_, ?_, by decide, by decide, by decide, by decide, by decide⟩
  · intro cfg fuel st ns children tok2 st2 children3 st3 h hr hb
    exact children_comma_no_node cfg fuel st ns children tok2 st2 children3 st3 h hr hb
  · intro cfg fuel st ns children tok2 st2 children3 st3 h hr hb
    exact children_comma_after_node cfg fuel st ns children tok2 st2 children3 st3 h hr hb
  · intro cfg fuel st children tok2 st' h hr
    exact comma_blank_step cfg fuel st children tok2 st' h hr
  · intro cfg fuel st children h
    exact comma_blank_stop cfg fuel st children h
  · intro cfg cs
    exact process_node_comments_proj cfg cs mkNode

/-- Claim C2 witness: the general conjuncts of the amended claim
instantiated at concrete loop states: a leading comma with nothing created,
followed directly by `)` (both the leading and the trailing blank are
materialized and the created flag is set); a comma after a created node
(nothing materialized); an inner-loop step on a consecutive comma; and the
inner-loop exit on a label token. -/
theorem claim_C2_witness :
    parse_tree_node_children defaultConfig 4
        ⟨some ",", [], [([], ")"), ([], ";")], []⟩ [] [] false =
      parse_tree_node_children defaultConfig 3
        ⟨some ")", [], [([], ";")], []⟩ [] [mkNode, mkNode] true
  ∧ parse_tree_node_children defaultConfig 4
        ⟨some ",", [], [([], "B"), ([], ")")], []⟩ [] [mkNode] true =
      parse_tree_node_children defaultConfig 3
        ⟨some "B", [], [([], ")")], []⟩ [] [mkNode] true
  ∧ comma_blank_nodes defaultConfig 4 ⟨some ",", [], [([], ")"), ([], ";")], []⟩ [] =
      comma_blank_nodes defaultConfig 3 ⟨some ")", [], [([], ";")], []⟩ [mkNode]
  ∧ comma_blank_nodes defaultConfig 4 ⟨some "B", [], [([], ")")], []⟩ [mkNode] =
      .ok ([mkNode], ⟨some "B", [], [([], ")")], []⟩) := by
  refine ⟨?_, ?_, ?_, ?_⟩
  · exact (claim_C2_amended.1 defaultConfig 3 ⟨some ",", [], [([], ")"), ([], ";")], []⟩
      [] [] ")" ⟨some ")", [], [([], ";")], []⟩ [mkNode] ⟨some ")", [], [([], ";")], []⟩
      rfl rfl (by rfl)).trans (by rfl)
  · exact claim_C2_amended.2.1 defaultConfig 3 ⟨some ",", [], [([], "B"), ([], ")")], []⟩
      [] [mkNode] "B" ⟨some "B", [], [([], ")")], []⟩ [mkNode] ⟨some "B", [], [([], ")")], []⟩
      rfl rfl rfl
  · exact (claim_C2_amended.2.2.1 defaultConfig 3 ⟨some ",", [], [([], ")"), ([], ";")], []⟩
      [] ")" ⟨some ")", [], [([], ";")], []⟩ rfl rfl).trans (by rfl)
  · exact claim_C2_amended.2.2.2.1 defaultConfig 3 ⟨some "B", [], [([], ")")], []⟩ [mkNode]
      (by decide)

/-- Claim C3 (counterexample): with the default policy, the comment batch
`&R` then `&U` yields an unrooted tree (`is_rooted = false`) although the
first directive `&R` alone would give `true` (second conjunct); each
directive overwrites the rootedness, so the last one wins, not the first. -/
theorem claim_C3_counterexample :
    firstTreeRooted (tree_iter_yields defaultConfig "[&R][&U](A,B);") = some (some false)
  ∧ parse_tree_rooting_state defaultConfig "&R" = .ok (some true) := by
  refine ⟨by decide, by rfl⟩

/-- Claim C3 (amended): for every batch whose last element is a rooting
directive, the tree's rootedness is the rooting state of that LAST directive
(first conjunct); the configured default policy is applied exactly when no
rooting directive is present in the batch (second conjunct); concretely
`&U` then `&R` gives a rooted tree (third conjunct). -/
theorem claim_C3_amended :
    (∀ (cfg : Config) (tree : PTree) (cs : List String) (c : String)
        (r : Option Bool) (t' : PTree),
      (c = "&u" ∨ c = "&U" ∨ c = "&r" ∨ c = "&R") →
      parse_tree_rooting_state cfg c = .ok r →
      process_tree_comments cfg tree (cs ++ [c]) = .ok t' →
      t'.isRooted = r)
  ∧ (∀ (cfg : Config) (tree : PTree) (cs : List String) (t' : PTree),
      (∀ c ∈ cs, ¬(c = "&u" ∨ c = "&U" ∨ c = "&r" ∨ c = "&R")) →
      process_tree_comments cfg tree cs = .ok t' →
      ∃ r, parse_tree_rooting_state cfg "" = .ok r ∧ t'.isRooted = r)
  ∧ firstTreeRooted (tree_iter_yields defaultConfig "[&U][&R](A,B);") = some (some true) := by
  exact ⟨ptc_last_rooting_wins, ptc_no_rooting_default, by decide⟩

/-- Claim C3 witness: the amended claim instantiated on concrete batches:
`["&R", "&U"]` ends with `&U`, so the parsed tree is unrooted; the empty
batch receives the default policy (unrooted under the default
configuration). -/
theorem claim_C3_witness :
    (({ isRooted := some false, weight := none, comments := [], annotations := [],
        seed := mkNode } : PTree).isRooted = some false)
  ∧ (∃ r, parse_tree_rooting_state defaultConfig "" = .ok r ∧
      ({ isRooted := some false, weight := none, comments := [], annotations := [],
         seed := mkNode } : PTree).isRooted = r) := by
  refine ⟨?_, ?_⟩
  · exact claim_C3_amended.1 defaultConfig mkTree ["&R"] "&U" (some false) _
      (by simp) (by rfl) (by rfl)
  · exact claim_C3_amended.2.1 defaultConfig mkTree [] _ (by simp) (by rfl)

/-- Claim C4: whenever the node-description recursion of a statement
returns with the completion flag unset (no terminating `;` was seen), the
parser raises the incomplete-tree-statement error and yields no tree
(first conjunct, general); the example stream `"(A,(B,C"` aborts with
exactly that error and an empty yielded sequence (second conjunct; under the
spec-modelled tokenizer, whose `require_advance` failure at end of stream is
the incomplete-statement error of the spec's error taxonomy). -/
theorem claim_C4_incomplete :
    (∀ (cfg : Config) (fuel : Nat) (st : TkState) (ns tc : List String),
      statement_complete_flag cfg fuel st ns tc = some false →
      parse_tree_statement_after_paren cfg fuel st ns tc =
        .error .incompleteTreeStatement)
  ∧ yieldShape (tree_iter_yields defaultConfig "(A,(B,C") =
      ([], some .incompleteTreeStatement) := by
  exact ⟨after_paren_incomplete, by decide⟩

/-- Claim C4 witness: on the statement `"(A,B))"` the recursion returns at
the stray `)` with the flag unset, and the statement parse is exactly the
incomplete-tree-statement error. -/
theorem claim_C4_witness :
    parse_tree_statement_after_paren defaultConfig 64
      (next_token (initTkState "(A,B))")).2 [] [] =
        .error .incompleteTreeStatement :=
  claim_C4_incomplete.1 defaultConfig 64 (next_token (initTkState "(A,B))")).2 [] []
    (by decide)

/-- Claim C5: in the label/termination loop, (a) a second label token before
a structural token, (b) a `(` immediately following a label (or any node
body) without a separator, and (c) a `:` whose following token fails the
configured edge-length cast, each produce the malformed-statement error;
concretely `"((A)B(C));"`, `"(A B);"` and `"(A:x);"` all abort with it. -/
theorem claim_C5_malformed :
    (∀ (cfg : Config) (fuel : Nat) (st : TkState) (ns : List String) (node : PNode)
        (nc : List String) (isInt flag : Bool) (tok : String),
      st.current = some tok →
      tok ≠ ":" → tok ≠ ")" → tok ≠ ";" → tok ≠ "," → tok ≠ "(" →
      parse_tree_node_tail cfg (fuel+1) st ns node nc true isInt flag =
        .error .malformedStatement)
  ∧ (∀ (cfg : Config) (fuel : Nat) (st : TkState) (ns : List String) (node : PNode)
        (nc : List String) (lp isInt flag : Bool),
      st.current = some "(" →
      parse_tree_node_tail cfg (fuel+1) st ns node nc lp isInt flag =
        .error .malformedStatement)
  ∧ (∀ (cfg : Config) (fuel : Nat) (st : TkState) (ns : List String) (node : PNode)
        (nc : List String) (lp isInt flag : Bool) (len_tok : String) (st' : TkState),
      st.current = some ":" →
      require_next_token (clear_captured_comments st) = .ok (len_tok, st') →
      cfg.suppressEdgeLengths = false →
      cfg.edgeLenParse len_tok = none →
      parse_tree_node_tail cfg (fuel+1) st ns node nc lp isInt flag =
        .error .malformedStatement)
  ∧ (tree_iter_yields defaultConfig "((A)B(C));").2 = some .malformedStatement
  ∧ (tree_iter_yields defaultConfig "(A B);").2 = some .malformedStatement
  ∧ (tree_iter_yields defaultConfig "(A:x);").2 = some .malformedStatement := by
  refine ⟨?_, ?_, ?_, by decide, by decide, by decide⟩
  · intro cfg fuel st ns node nc isInt flag tok h h1 h2 h3 h4 h5
    exact tail_dup_label cfg fuel st ns node nc isInt flag tok h h1 h2 h3 h4 h5
  · intro cfg fuel st ns node nc lp isInt flag h
    exact tail_paren_malformed cfg fuel st ns node nc lp isInt flag h
  · intro cfg fuel st ns node nc lp isInt flag len_tok st' h hr hs hp
    exact tail_bad_length cfg fuel st ns node nc lp isInt flag len_tok st' h hr hs hp

/-- Claim C5 witness: the three general conjuncts instantiated at concrete
loop states: a duplicate label `B`, a `(` in the termination position, and a
`:` followed by the uncastable token `x` under the default float cast. -/
theorem claim_C5_witness :
    parse_tree_node_tail defaultConfig 4 ⟨some "B", [], [([], ")")], []⟩ []
        mkNode [] true true false = .error .malformedStatement
  ∧ parse_tree_node_tail defaultConfig 4 ⟨some "(", [], [], []⟩ []
        mkNode [] false true false = .error .malformedStatement
  ∧ parse_tree_node_tail defaultConfig 4 ⟨some ":", [], [([], "x")], []⟩ []
        mkNode [] false true false = .error .malformedStatement := by
  refine ⟨?_, ?_, ?_⟩
  · exact claim_C5_malformed.1 defaultConfig 3 _ [] mkNode [] true false "B"
      rfl (by decide) (by decide) (by decide) (by decide) (by decide)
  · exact claim_C5_malformed.2.1 defaultConfig 3 _ [] mkNode [] false true false rfl
  · exact claim_C5_malformed.2.2.1 defaultConfig 3 _ [] mkNode [] false true false
      "x" ⟨some "x", [], [], []⟩ rfl rfl rfl rfl

/-- Claim C6 (code bug): the claim (and the method's own docstring) say the
sequence terminates after the last tree with no additional elements; the
generator body yields the result of `_parse_tree_statement` before checking
it for `None`, so one trailing `None` sentinel element is always yielded
(the `false` entries below), even for an empty stream; the subsequent
`raise StopIteration` inside a generator is itself a `RuntimeError` under
PEP 479. -/
theorem claim_C6_sentinel :
    yieldShape (tree_iter_yields defaultConfig "(A,B);") = ([true, false], none)
  ∧ yieldShape (tree_iter_yields defaultConfig "(A,B); ((C,D),E);") =
      ([true, true, false], none)
  ∧ yieldShape (tree_iter_yields defaultConfig "") = ([false], none) := by
  refine ⟨by decide, by decide, by decide⟩

/-- Claim C7 (counterexample): the claim says `[&R]`/`[&U]` force the
rootedness under ANY configured rooting policy; under `force-rooted` the
statement `"[&U](A,B);"` yields a rooted tree, and under `force-unrooted`
the statement `"[&R](A,B);"` yields an unrooted one: the force policies are
consulted before the comment and override the directive. -/
theorem claim_C7_counterexample :
    firstTreeRooted (tree_iter_yields { defaultConfig with rooting := some "force-rooted" }
        "[&U](A,B);") = some (some true)
  ∧ firstTreeRooted (tree_iter_yields { defaultConfig with rooting := some "force-unrooted" }
        "[&R](A,B);") = some (some false) := by
  refine ⟨by decide, by decide⟩

/-- Claim C7 (amended): under either default policy or the explicit unknown
passthrough (`rooting = None`), the directive `&R` forces rootedness `true`
and `&U` forces `false` (first conjunct); the force policies override the
directive (second and third conjuncts); concretely `"[&R](A,B);"` is rooted
and `"[&U](A,B);"` unrooted under both default policies. -/
theorem claim_C7_amended :
    (∀ cfg : Config,
      (cfg.rooting = some "default-unrooted" ∨ cfg.rooting = some "default-rooted"
        ∨ cfg.rooting = none) →
      parse_tree_rooting_state cfg "&R" = .ok (some true)
        ∧ parse_tree_rooting_state cfg "&U" = .ok (some false))
  ∧ (∀ cfg : Config, cfg.rooting = some "force-unrooted" →
      parse_tree_rooting_state cfg "&R" = .ok (some false))
  ∧ (∀ cfg : Config, cfg.rooting = some "force-rooted" →
      parse_tree_rooting_state cfg "&U" = .ok (some true))
  ∧ firstTreeRooted (tree_iter_yields defaultConfig "[&R](A,B);") = some (some true)
  ∧ firstTreeRooted (tree_iter_yields defaultConfig "[&U](A,B);") = some (some false)
  ∧ firstTreeRooted (tree_iter_yields { defaultConfig with rooting := some "default-rooted" }
      "[&R](A,B);") = some (some true)
  ∧ firstTreeRooted (tree_iter_yields { defaultConfig with rooting := some "default-rooted" }
      "[&U](A,B);") = some (some false) := by
  refine ⟨?_, ?_, ?_, by decide, by decide, by decide, by decide⟩
  · intro cfg h
    rcases h with h|h|h <;> simp [parse_tree_rooting_state, h]
  · intro cfg h
    simp [parse_tree_rooting_state, h]
  · intro cfg h
    simp [parse_tree_rooting_state, h]

/-- Claim C7 witness: the amended claim instantiated at the default
configuration and at the two force policies. -/
theorem claim_C7_witness :
    (parse_tree_rooting_state defaultConfig "&R" = .ok (some true)
      ∧ parse_tree_rooting_state defaultConfig "&U" = .ok (some false))
  ∧ parse_tree_rooting_state { defaultConfig with rooting := some "force-unrooted" }
      "&R" = .ok (some false)
  ∧ parse_tree_rooting_state { defaultConfig with rooting := some "force-rooted" }
      "&U" = .ok (some true) := by
  refine ⟨?_, ?_, ?_⟩
  · exact claim_C7_amended.1 defaultConfig (Or.inl rfl)
  · exact claim_C7_amended.2.1 _ rfl
  · exact claim_C7_amended.2.2.1 _ rfl

/-- Claim C8: under the default configuration, a first label token on an
internal node is stored as its plain-string label (internal taxa suppressed;
no taxon resolved, namespace untouched), while on a leaf node it is resolved
through the taxon namespace and bound as the node's taxon (first two
conjuncts, general, for any configuration with the default suppression
flags); concretely `"(A,B);"` yields a root without label or taxon whose two
leaf children carry taxa `A` and `B`, and in `"((A,B)C);"` the internal
label `C` stays a plain label. -/
theorem claim_C8_taxa :
    (∀ (cfg : Config) (fuel : Nat) (st : TkState) (ns : List String) (node : PNode)
        (nc : List String) (flag : Bool) (tok tok2 : String) (st' : TkState),
      cfg.suppressInternalNodeTaxa = true →
      st.current = some tok →
      tok ≠ ":" → tok ≠ ")" → tok ≠ ";" → tok ≠ "," → tok ≠ "(" →
      require_next_token (clear_captured_comments st) = .ok (tok2, st') →
      parse_tree_node_tail cfg (fuel+1) st ns node nc false true flag =
        parse_tree_node_tail cfg fuel st' ns (node.setLabel (foldLabel cfg tok))
          (nc ++ st.captured) true true flag)
  ∧ (∀ (cfg : Config) (fuel : Nat) (st : TkState) (ns : List String) (node : PNode)
        (nc : List String) (flag : Bool) (tok tok2 : String) (st' : TkState),
      cfg.suppressExternalNodeTaxa = false →
      st.current = some tok →
      tok ≠ ":" → tok ≠ ")" → tok ≠ ";" → tok ≠ "," → tok ≠ "(" →
      require_next_token (clear_captured_comments st) = .ok (tok2, st') →
      parse_tree_node_tail cfg (fuel+1) st ns node nc false false flag =
        parse_tree_node_tail cfg fuel st'
          (require_taxon_for_symbol ns (foldLabel cfg tok)).2
          (node.setTaxon (require_taxon_for_symbol ns (foldLabel cfg tok)).1)
          (nc ++ st.captured) true false flag)
  ∧ firstTreeShape (tree_iter_yields defaultConfig "(A,B);") =
      some ((none, none), [(none, some "A"), (none, some "B")])
  ∧ firstTreeShape (tree_iter_yields defaultConfig "((A,B)C);") =
      some ((none, none), [(some "C", none)]) := by
  refine ⟨?_, ?_, by decide, by decide⟩
  · intro cfg fuel st ns node nc flag tok tok2 st' hsup h h1 h2 h3 h4 h5 hr
    exact tail_label_internal cfg fuel st ns node nc flag tok tok2 st' hsup
      h h1 h2 h3 h4 h5 hr
  · intro cfg fuel st ns node nc flag tok tok2 st' hsup h h1 h2 h3 h4 h5 hr
    exact tail_label_leaf cfg fuel st ns node nc flag tok tok2 st' hsup
      h h1 h2 h3 h4 h5 hr

/-- Claim C8 witness: the two general conjuncts instantiated at concrete
loop states: an internal node reading label `C` (stored as plain label) and
a leaf reading label `A` (bound as taxon, namespace grown). -/
theorem claim_C8_witness :
    parse_tree_node_tail defaultConfig 4 ⟨some "C", [], [([], ")")], []⟩ []
        mkNode [] false true false =
      parse_tree_node_tail defaultConfig 3 ⟨some ")", [], [], []⟩ []
        (mkNode.setLabel "C") [] true true false
  ∧ parse_tree_node_tail defaultConfig 4 ⟨some "A", [], [([], ",")], []⟩ []
        mkNode [] false false false =
      parse_tree_node_tail defaultConfig 3 ⟨some ",", [], [], []⟩ ["A"]
        (mkNode.setTaxon "A") [] true false false := by
  refine ⟨?_, ?_⟩
  · exact claim_C8_taxa.1 defaultConfig 3 ⟨some "C", [], [([], ")")], []⟩ []
      mkNode [] false "C" ")" ⟨some ")", [], [], []⟩ rfl rfl
      (by decide) (by decide) (by decide) (by decide) (by decide) rfl
  · exact claim_C8_taxa.2.1 defaultConfig 3 ⟨some "A", [], [([], ",")], []⟩ []
      mkNode [] false "A" "," ⟨some ",", [], [], []⟩ rfl rfl
      (by decide) (by decide) (by decide) (by decide) (by decide) rfl

/-- Claim C9 (counterexample): the configuration accepts the explicit
unknown passthrough as the null value `None`, not as the string
`"unknown"`: `rooting="unknown"` is rejected with `ValueError` while
`rooting=None` is accepted. -/
theorem claim_C9_counterexample :
    rooting_accepted (some "unknown") = false
  ∧ rooting_accepted none = true := by
  refine ⟨by decide, by decide⟩

/-- Claim C9 (amended): the rooting configuration accepts exactly the four
policy strings plus the null value (the explicit unknown passthrough) and
rejects every other value; the default is `default-unrooted`. -/
theorem claim_C9_amended :
    (∀ v : Option String,
      rooting_accepted v = true ↔
        (v = some "force-unrooted" ∨ v = some "force-rooted"
          ∨ v = some "default-unrooted" ∨ v = some "default-rooted" ∨ v = none))
  ∧ defaultConfig.rooting = some "default-unrooted" := by
  refine ⟨?_, rfl⟩
  intro v
  constructor
  · intro hacc
    by_contra hno
    push_neg at hno
    obtain ⟨n1, n2, n3, n4, n5⟩ := hno
    simp [rooting_accepted, set_rooting, n1, n2, n3, n4, n5] at hacc
  · intro hv
    rcases hv with h|h|h|h|h <;> simp [rooting_accepted, set_rooting, h]

/-- Claim C10: for every input stream and every configuration, the sequence
of trees produced by the reader (including any escaping error) is identical
for both values of `case_sensitive_taxon_labels` and both values of
`allow_duplicate_taxon_labels`: `__init__` stores the two options but no
parsing code path reads them (the taxon symbol mapper is constructed by
`_read` without them). -/
theorem claim_C10_options_unread (cfg : Config) (b1 d1 b2 d2 : Bool) (input : String) :
    tree_iter_yields
        { cfg with caseSensitiveTaxonLabels := b1, allowDuplicateTaxonLabels := d1 } input =
      tree_iter_yields
        { cfg with caseSensitiveTaxonLabels := b2, allowDuplicateTaxonLabels := d2 } input :=
  tree_iter_yields_indep cfg b1 d1 b2 d2 input
